import Mathlib

/-!
Shallow embedding of the sandworm Dune Analytics client (src/client.rs),
formalising the execution-lifecycle state machine: the polling wait loop
(`wait_for_results`), the composite `run_sql`, response error mapping
(`handle_response`, `handle_text_response`), and client construction
(`with_base_url`). Durations and times are natural numbers of milliseconds;
the transport layer is an external collaborator and enters as an oracle.
-/

namespace Sandworm

/-- Execution states of a remote query run, exactly the variants matched
exhaustively (no wildcard) in the wait loop of client.rs, lines 427-445. -/
inductive ExecutionState where
  | pending
  | executing
  | completed
  | failed
  | cancelled
deriving DecidableEq, Repr

/-- Modelled from the spec: the `types` module is not under src; spec section 3
describes ExecutionStatus as a snapshot combining an ExecutionState with
auxiliary metadata. Only the state drives the client logic in client.rs, so
the snapshot is modelled by its state. -/
structure ExecutionStatusResponse where
  state : ExecutionState
deriving DecidableEq, Repr

/-- Modelled from the spec: the `types` module is not under src; spec section 3
describes ResultSet as rows plus metadata, opaque to the wait loop. Rows are
modelled as opaque strings. -/
structure ExecutionResultsResponse where
  rows : List String
deriving DecidableEq, Repr

/-- Error taxonomy. The variants constructed in client.rs are `InvalidApiKey`
(line 42), `Api` (lines 466, 472, 485), `ExecutionFailed` (line 432),
`Cancelled` (line 440) and `Timeout` (line 420); the transport and decode
variants follow spec section 7 (TransportFailure, DecodeFailure) since the
`error` module is not under src. -/
inductive DuneError where
  | invalidApiKey
  | http (msg : String)
  | api (message : String)
  | executionFailed (message : String)
  | cancelled
  | timeout (seconds : Nat)
  | decode (msg : String)
deriving DecidableEq, Repr

/-- Debug-style rendering of an execution state. -/
def stateRepr : ExecutionState → String
  | .pending => "Pending"
  | .executing => "Executing"
  | .completed => "Completed"
  | .failed => "Failed"
  | .cancelled => "Cancelled"

/-- Modelled from the spec: the derived Debug rendering of the status snapshot
(the "\x7b:?\x7d" in client.rs line 435 applies to a type in the missing
`types` module); rendered struct-style over the modelled snapshot. -/
def statusRepr (s : ExecutionStatusResponse) : String :=
  "ExecutionStatusResponse \x7b state: " ++ stateRepr s.state ++ " \x7d"

/-- The message built on the Failed branch of the wait loop, client.rs lines
432-437: format "Query execution failed for execution_id ..: ..". -/
def execFailedMsg (eid : String) (st : ExecutionStatusResponse) : String :=
  "Query execution failed for execution_id " ++ eid ++ ": " ++ statusRepr st

/-- Instrumentation events recording the transport activity of the wait loop.
Times are elapsed milliseconds since the wait clock started, taken at the
moment the call (or sleep) is issued. -/
inductive Event where
  | statusPoll (idx : Nat) (time : Nat)
  | sleep (ms : Nat) (time : Nat)
  | resultFetch (time : Nat)
deriving DecidableEq, Repr

/-- Whether an event is a status poll. -/
def Event.isPoll : Event → Bool
  | .statusPoll _ _ => true
  | _ => false

/-- Whether an event is a call to the results endpoint. -/
def Event.isFetch : Event → Bool
  | .resultFetch _ => true
  | _ => false

/-- The status/results endpoints as the wait loop sees them: outcome and
wall-clock duration (ms) of the i-th status poll, and outcome and duration of
the result fetch. The transport layer is an external collaborator (spec
section 1), so it enters the embedding as this oracle. -/
structure StatusMock where
  poll : Nat → Except DuneError ExecutionStatusResponse
  pollDur : Nat → Nat
  results : Except DuneError ExecutionResultsResponse
  resultsDur : Nat

/-- The fixed poll interval of the wait loop: Duration::from_secs(1),
client.rs line 416. -/
def pollIntervalMs : Nat := 1000

/-- The polling loop of `wait_for_results` (client.rs lines 418-446), with
explicit fuel (`none` means the loop has not returned within `fuel`
iterations). State: elapsed ms `now` since the wait clock started, number
`polls` of status polls already issued, and the instrumentation trace `tr`.
Each iteration first checks `start.elapsed() > timeout` (line 419), then
polls; Completed fetches results, Failed and Cancelled return errors,
Pending and Executing sleep for the fixed poll interval and loop. Returns
the result, the trace and the elapsed ms at return. -/
def waitLoopAux (m : StatusMock) (eid : String) (t : Nat) :
    Nat → Nat → Nat → List Event →
    Option (Except DuneError ExecutionResultsResponse × List Event × Nat)
  | 0, _, _, _ => none
  | fuel+1, now, polls, tr =>
    if t < now then
      some (.error (.timeout (t / 1000)), tr, now)
    else
      match m.poll polls with
      | .error e => some (.error e, tr ++ [Event.statusPoll polls now], now + m.pollDur polls)
      | .ok status =>
        match status.state with
        | .completed =>
            some (m.results,
                  tr ++ [Event.statusPoll polls now, .resultFetch (now + m.pollDur polls)],
                  now + m.pollDur polls + m.resultsDur)
        | .failed =>
            some (.error (.executionFailed (execFailedMsg eid status)),
                  tr ++ [Event.statusPoll polls now], now + m.pollDur polls)
        | .cancelled =>
            some (.error .cancelled, tr ++ [Event.statusPoll polls now], now + m.pollDur polls)
        | .pending =>
            waitLoopAux m eid t fuel (now + m.pollDur polls + pollIntervalMs) (polls + 1)
              (tr ++ [Event.statusPoll polls now, .sleep pollIntervalMs (now + m.pollDur polls)])
        | .executing =>
            waitLoopAux m eid t fuel (now + m.pollDur polls + pollIntervalMs) (polls + 1)
              (tr ++ [Event.statusPoll polls now, .sleep pollIntervalMs (now + m.pollDur polls)])

/-- `wait_for_results` (client.rs lines 410-447): the wait clock starts at 0
at entry (`let start = std::time::Instant::now()`, line 415), the loop runs
with an empty trace. -/
def wait_for_results (m : StatusMock) (eid : String) (t fuel : Nat) :
    Option (Except DuneError ExecutionResultsResponse × List Event × Nat) :=
  waitLoopAux m eid t fuel 0 0 []

/-- Elapsed ms at the top of the k-th loop iteration (the k-th timeout
check): the sum of the first k poll durations and k full poll intervals. -/
def checkTime (m : StatusMock) : Nat → Nat
  | 0 => 0
  | k+1 => checkTime m k + m.pollDur k + pollIntervalMs

/-- The trace left by k consecutive non-terminal iterations: for each i < k a
status poll at its check time followed by a one-interval sleep. -/
def pollSleepTrace (m : StatusMock) : Nat → List Event
  | 0 => []
  | k+1 => pollSleepTrace m k ++
      [Event.statusPoll k (checkTime m k), .sleep pollIntervalMs (checkTime m k + m.pollDur k)]

/-- The submit endpoint as `run_sql` sees it: outcome (execution id or error)
and wall-clock duration (ms) of the submit round trip, followed by the
status/results oracle for the wait phase. -/
structure SubmitMock where
  submit : Except DuneError String
  submitDur : Nat
  status : StatusMock

/-- `run_sql` (client.rs lines 383-391): submit via `execute_sql`, then wait.
The wait clock is started inside `wait_for_results`, i.e. after the submit
round trip has completed; the submit duration is not read anywhere. On submit
failure the error propagates with no wait-phase activity (empty trace,
elapsed 0). `run_query` (lines 394-402) has the identical shape. -/
def run_sql (m : SubmitMock) (t fuel : Nat) :
    Option (Except DuneError ExecutionResultsResponse × List Event × Nat) :=
  match m.submit with
  | .error e => some (.error e, [], 0)
  | .ok eid => wait_for_results m.status eid t fuel

/-- Modelled from the spec: spec section 4.2 step 2 reads "if elapsed
wall-clock time since submission exceeds `timeout`, fail with `Timeout`", and
the claim glosses this as a budget that includes the submit round trip. Under
that reading the wait clock starts at the moment of submission, so the loop
begins with `now` already equal to the submit duration. This definition
follows the spec words, to be compared with `run_sql` above (which follows
the source). -/
def run_sql_specClock (m : SubmitMock) (t fuel : Nat) :
    Option (Except DuneError ExecutionResultsResponse × List Event × Nat) :=
  match m.submit with
  | .error e => some (.error e, [], m.submitDur)
  | .ok eid => waitLoopAux m.status eid t fuel m.submitDur 0 []

/-- A minimal JSON value model; serde_json is an external collaborator (spec
section 1), so response bodies are related to JSON values through an abstract
parse oracle. -/
inductive Json where
  | null
  | bool (b : Bool)
  | num (n : Int)
  | str (s : String)
  | arr (xs : List Json)
  | obj (fields : List (String × Json))

/-- `Value::get("error").and_then(as_str)` (client.rs line 465): on an object,
look the key up and keep the value only when it is a string; on any other
JSON value, none. -/
def Json.getStr : Json → String → Option String
  | .obj fields, k =>
      match fields.lookup k with
      | some (.str s) => some s
      | _ => none
  | _, _ => none

/-- An HTTP response as the handlers see it: numeric status code, the
Display rendering of the status (code and canonical reason), and the outcome
of reading the body text (reading can fail at the transport layer). -/
structure HttpResponse where
  code : Nat
  statusDisplay : String
  text : Except DuneError String

/-- `StatusCode::is_success`: 2xx. -/
def isSuccessCode (c : Nat) : Bool := 200 ≤ c && c ≤ 299

/-- The verbatim message "HTTP ..status..: ..body.." of client.rs lines 473
and 486. -/
def httpStatusBodyMsg (r : HttpResponse) (body : String) : String :=
  "HTTP " ++ r.statusDisplay ++ ": " ++ body

/-- `response.text().await.unwrap_or_default()` (client.rs lines 461, 484). -/
def textOrDefault (r : HttpResponse) : String :=
  match r.text with
  | .ok b => b
  | .error _ => ""

/-- The error-field extraction of client.rs lines 464-470: parse the body as
JSON (abstract oracle `parse`) and, on success, read a string field named
"error". -/
def errField (parse : String → Option Json) (body : String) : Option String :=
  match parse body with
  | some j => j.getStr "error"
  | none => none

/-- `handle_response` (client.rs lines 451-476), generic over the expected
shape via the decode capability: on a success status, read the body (a
transport failure propagates) and decode it; otherwise read the body with
empty default, and fail with Api carrying the extracted "error" field when
the body parses to JSON holding one, else Api carrying the verbatim
status-and-body string. -/
def handle_response {T : Type} (decode : String → Except DuneError T)
    (parse : String → Option Json) (r : HttpResponse) : Except DuneError T :=
  if isSuccessCode r.code then
    match r.text with
    | .error e => .error e
    | .ok body => decode body
  else
    let body := textOrDefault r
    match errField parse body with
    | some msg => .error (.api msg)
    | none => .error (.api (httpStatusBodyMsg r body))

/-- `handle_text_response` (client.rs lines 478-489): on a success status
return the body text unmodified; otherwise fail with Api carrying the
verbatim status-and-body string — no JSON parse, no error-field
extraction. -/
def handle_text_response (r : HttpResponse) : Except DuneError String :=
  if isSuccessCode r.code then
    match r.text with
    | .error e => .error e
    | .ok body => .ok body
  else
    .error (.api (httpStatusBodyMsg r (textOrDefault r)))

/-- `get_execution_results_csv_with_options` (client.rs lines 234-252): the
URL and query-parameter construction are elided (the transport oracle already
answers for the built request); the response goes through
`handle_text_response`. -/
def get_execution_results_csv_with_options (r : HttpResponse) :
    Except DuneError String :=
  handle_text_response r

/-- Validity of one byte of a header value, per `HeaderValue::from_str` of
the http crate (an external dependency): visible chars and spaces (32..=255
except DEL) plus horizontal tab. -/
def isValidHeaderByte (b : Nat) : Bool :=
  (32 ≤ b && b ≤ 255 && !(b == 127)) || b == 9

/-- The constructed client: the fixed default headers, base URL and the
global per-request timeout (client.rs lines 14-18 and 45-59). -/
structure DuneClient where
  headers : List (String × List Nat)
  base_url : String
  timeoutSecs : Nat
deriving DecidableEq, Repr

/-- `with_base_url` (client.rs lines 39-60). The API key is modelled as its
UTF-8 byte sequence. Empty key: InvalidApiKey (line 42). Non-empty key that
`HeaderValue::from_str` rejects: InvalidApiKey via the map_err on line 48.
Otherwise the reqwest builder produces the client (builder failure is an
environmental transport-layer concern, out of scope per spec section 1, so
the build step is modelled as succeeding). Paired with the number of network
requests issued during construction: the constructor contains no transport
call, so it is 0. -/
def with_base_url (api_key : List Nat) (base_url : String) :
    Except DuneError DuneClient × Nat :=
  if api_key = [] then
    (.error .invalidApiKey, 0)
  else if api_key.all isValidHeaderByte then
    (.ok { headers := [("X-Dune-Api-Key", api_key)], base_url := base_url,
           timeoutSecs := 30 }, 0)
  else
    (.error .invalidApiKey, 0)

/-! ### Step lemmas for the wait loop -/

/-- A loop iteration whose timeout check fires returns immediately: nothing
is appended to the trace (no poll is issued in that iteration) and the
elapsed time at return is the time at the check. -/
theorem waitLoopAux_timeout_step (m : StatusMock) (eid : String)
    (t fuel now polls : Nat) (tr : List Event) (h : t < now) :
    waitLoopAux m eid t (fuel + 1) now polls tr =
      some (.error (.timeout (t / 1000)), tr, now) := by
  simp [waitLoopAux, h]

/-- A loop iteration whose check passes and whose poll fails at the transport
level returns that error unchanged, with exactly the one poll appended. -/
theorem waitLoopAux_transport_step (m : StatusMock) (eid : String)
    (t fuel now polls : Nat) (tr : List Event) (e : DuneError)
    (h : ¬ t < now) (hp : m.poll polls = .error e) :
    waitLoopAux m eid t (fuel + 1) now polls tr =
      some (.error e, tr ++ [Event.statusPoll polls now], now + m.pollDur polls) := by
  simp [waitLoopAux, h, hp]

/-- A loop iteration that observes Completed fetches the results and returns
them. -/
theorem waitLoopAux_completed_step (m : StatusMock) (eid : String)
    (t fuel now polls : Nat) (tr : List Event) (st : ExecutionStatusResponse)
    (h : ¬ t < now) (hp : m.poll polls = .ok st) (hs : st.state = .completed) :
    waitLoopAux m eid t (fuel + 1) now polls tr =
      some (m.results,
            tr ++ [Event.statusPoll polls now, .resultFetch (now + m.pollDur polls)],
            now + m.pollDur polls + m.resultsDur) := by
  simp [waitLoopAux, h, hp, hs]

/-- A loop iteration that observes Failed returns ExecutionFailed with the
diagnostic message, issuing no result fetch. -/
theorem waitLoopAux_failed_step (m : StatusMock) (eid : String)
    (t fuel now polls : Nat) (tr : List Event) (st : ExecutionStatusResponse)
    (h : ¬ t < now) (hp : m.poll polls = .ok st) (hs : st.state = .failed) :
    waitLoopAux m eid t (fuel + 1) now polls tr =
      some (.error (.executionFailed (execFailedMsg eid st)),
            tr ++ [Event.statusPoll polls now], now + m.pollDur polls) := by
  simp [waitLoopAux, h, hp, hs]

/-- A loop iteration that observes Cancelled returns the Cancelled error. -/
theorem waitLoopAux_cancelled_step (m : StatusMock) (eid : String)
    (t fuel now polls : Nat) (tr : List Event) (st : ExecutionStatusResponse)
    (h : ¬ t < now) (hp : m.poll polls = .ok st) (hs : st.state = .cancelled) :
    waitLoopAux m eid t (fuel + 1) now polls tr =
      some (.error .cancelled, tr ++ [Event.statusPoll polls now],
            now + m.pollDur polls) := by
  simp [waitLoopAux, h, hp, hs]

/-- A loop iteration that observes Pending or Executing sleeps for the fixed
poll interval and repeats from the timeout check, with no other action. -/
theorem waitLoopAux_nonterminal_step (m : StatusMock) (eid : String)
    (t fuel now polls : Nat) (tr : List Event) (st : ExecutionStatusResponse)
    (h : ¬ t < now) (hp : m.poll polls = .ok st)
    (hs : st.state = .pending ∨ st.state = .executing) :
    waitLoopAux m eid t (fuel + 1) now polls tr =
      waitLoopAux m eid t fuel (now + m.pollDur polls + pollIntervalMs)
        (polls + 1)
        (tr ++ [Event.statusPoll polls now,
                .sleep pollIntervalMs (now + m.pollDur polls)]) := by
  rcases hs with hs | hs <;> simp [waitLoopAux, h, hp, hs]

/-- After k iterations whose checks pass and whose polls observe non-terminal
states, the loop stands at the k-th check with elapsed time `checkTime m k`
and trace `pollSleepTrace m k`. -/
theorem wait_steps (m : StatusMock) (eid : String) (t : Nat) :
    ∀ (k fuel : Nat),
      (∀ i, i < k → ∃ st, m.poll i = .ok st ∧
        (st.state = .pending ∨ st.state = .executing)) →
      (∀ i, i < k → checkTime m i ≤ t) →
      waitLoopAux m eid t (k + fuel) 0 0 [] =
        waitLoopAux m eid t fuel (checkTime m k) k (pollSleepTrace m k) := by
  intro k
  induction k with
  | zero => intro fuel _ _; rw [Nat.zero_add]; rfl
  | succ k ih =>
    intro fuel hpre htime
    have hstep : k + 1 + fuel = k + (fuel + 1) := by omega
    rw [hstep, ih (fuel + 1) (fun i hi => hpre i (by omega))
          (fun i hi => htime i (by omega))]
    obtain ⟨st, hst, hsts⟩ := hpre k (by omega)
    have hck : ¬ t < checkTime m k := Nat.not_lt.mpr (htime k (by omega))
    rw [waitLoopAux_nonterminal_step m eid t fuel (checkTime m k) k
          (pollSleepTrace m k) st hck hst hsts]
    rfl

/-- The loop only ever appends to its trace accumulator. -/
theorem waitLoopAux_trace_mono (m : StatusMock) (eid : String) (t : Nat) :
    ∀ (fuel now polls : Nat) (tr : List Event)
      (res : Except DuneError ExecutionResultsResponse) (tr' : List Event)
      (el : Nat),
      waitLoopAux m eid t fuel now polls tr = some (res, tr', el) →
      ∃ rest, tr' = tr ++ rest := by
  intro fuel
  induction fuel with
  | zero => intro now polls tr res tr' el h; simp [waitLoopAux] at h
  | succ fuel ih =>
    intro now polls tr res tr' el h
    by_cases hlt : t < now
    · rw [waitLoopAux_timeout_step m eid t fuel now polls tr hlt] at h
      simp only [Option.some.injEq, Prod.mk.injEq] at h
      exact ⟨[], by simp [h.2.1.symm]⟩
    · cases hp : m.poll polls with
      | error e =>
        rw [waitLoopAux_transport_step m eid t fuel now polls tr e hlt hp] at h
        simp only [Option.some.injEq, Prod.mk.injEq] at h
        exact ⟨[Event.statusPoll polls now], h.2.1.symm⟩
      | ok st =>
        cases hs : st.state with
        | completed =>
          rw [waitLoopAux_completed_step m eid t fuel now polls tr st hlt hp hs] at h
          simp only [Option.some.injEq, Prod.mk.injEq] at h
          exact ⟨[Event.statusPoll polls now, .resultFetch (now + m.pollDur polls)],
            h.2.1.symm⟩
        | failed =>
          rw [waitLoopAux_failed_step m eid t fuel now polls tr st hlt hp hs] at h
          simp only [Option.some.injEq, Prod.mk.injEq] at h
          exact ⟨[Event.statusPoll polls now], h.2.1.symm⟩
        | cancelled =>
          rw [waitLoopAux_cancelled_step m eid t fuel now polls tr st hlt hp hs] at h
          simp only [Option.some.injEq, Prod.mk.injEq] at h
          exact ⟨[Event.statusPoll polls now], h.2.1.symm⟩
        | pending =>
          rw [waitLoopAux_nonterminal_step m eid t fuel now polls tr st hlt hp
                (Or.inl hs)] at h
          obtain ⟨rest, hrest⟩ := ih _ _ _ _ _ _ h
          exact ⟨[Event.statusPoll polls now,
                  .sleep pollIntervalMs (now + m.pollDur polls)] ++ rest,
            by simpa [List.append_assoc] using hrest⟩
        | executing =>
          rw [waitLoopAux_nonterminal_step m eid t fuel now polls tr st hlt hp
                (Or.inr hs)] at h
          obtain ⟨rest, hrest⟩ := ih _ _ _ _ _ _ h
          exact ⟨[Event.statusPoll polls now,
                  .sleep pollIntervalMs (now + m.pollDur polls)] ++ rest,
            by simpa [List.append_assoc] using hrest⟩

/-- The non-terminal prefix trace contains no result fetch. -/
theorem pollSleepTrace_no_fetch (m : StatusMock) :
    ∀ k, (pollSleepTrace m k).countP Event.isFetch = 0 := by
  intro k
  induction k with
  | zero => rfl
  | succ k ih =>
    simp [pollSleepTrace, List.countP_append, ih, List.countP_cons,
      Event.isFetch]

/-- The non-terminal prefix trace contains exactly k status polls. -/
theorem pollSleepTrace_poll_count (m : StatusMock) :
    ∀ k, (pollSleepTrace m k).countP Event.isPoll = k := by
  intro k
  induction k with
  | zero => rfl
  | succ k ih =>
    simp [pollSleepTrace, List.countP_append, ih, List.countP_cons,
      Event.isPoll]

/-! ### Claim theorems -/

/-- C1: in every run of `wait_for_results` where the transport reports
Pending on the first two status polls and Completed on the third (and the
timeout does not fire first), the loop issues exactly 3 status polls and
exactly 1 result fetch, sleeps the configured poll interval between
consecutive polls, and returns the result set fetched from the results
endpoint. -/
theorem claim_runAndWait_pending_pending_completed
    (m : StatusMock) (eid : String) (t fuel : Nat)
    (st0 st1 st2 : ExecutionStatusResponse) (rs : ExecutionResultsResponse)
    (h0 : m.poll 0 = .ok st0) (h0s : st0.state = .pending)
    (h1 : m.poll 1 = .ok st1) (h1s : st1.state = .pending)
    (h2 : m.poll 2 = .ok st2) (h2s : st2.state = .completed)
    (hres : m.results = .ok rs)
    (ht1 : checkTime m 1 ≤ t) (ht2 : checkTime m 2 ≤ t) :
    wait_for_results m eid t (2 + (fuel + 1)) =
      some (.ok rs,
        [Event.statusPoll 0 0, .sleep pollIntervalMs (m.pollDur 0),
         .statusPoll 1 (checkTime m 1),
         .sleep pollIntervalMs (checkTime m 1 + m.pollDur 1),
         .statusPoll 2 (checkTime m 2),
         .resultFetch (checkTime m 2 + m.pollDur 2)],
        checkTime m 2 + m.pollDur 2 + m.resultsDur)
    ∧ ([Event.statusPoll 0 0, .sleep pollIntervalMs (m.pollDur 0),
        .statusPoll 1 (checkTime m 1),
        .sleep pollIntervalMs (checkTime m 1 + m.pollDur 1),
        .statusPoll 2 (checkTime m 2),
        .resultFetch (checkTime m 2 + m.pollDur 2)]).countP Event.isPoll = 3
    ∧ ([Event.statusPoll 0 0, .sleep pollIntervalMs (m.pollDur 0),
        .statusPoll 1 (checkTime m 1),
        .sleep pollIntervalMs (checkTime m 1 + m.pollDur 1),
        .statusPoll 2 (checkTime m 2),
        .resultFetch (checkTime m 2 + m.pollDur 2)]).countP Event.isFetch = 1
    ∧ pollIntervalMs = 1000 := by
  have hpre : ∀ i, i < 2 → ∃ st, m.poll i = .ok st ∧
      (st.state = .pending ∨ st.state = .executing) := by
    intro i hi
    interval_cases i
    · exact ⟨st0, h0, Or.inl h0s⟩
    · exact ⟨st1, h1, Or.inl h1s⟩
  have htime : ∀ i, i < 2 → checkTime m i ≤ t := by
    intro i hi
    interval_cases i
    · exact Nat.zero_le t
    · exact ht1
  refine ⟨?_, ?_, ?_, rfl⟩
  · unfold wait_for_results
    rw [wait_steps m eid t 2 (fuel + 1) hpre htime,
        waitLoopAux_completed_step m eid t fuel (checkTime m 2) 2
          (pollSleepTrace m 2) st2 (Nat.not_lt.mpr ht2) h2 h2s, hres]
    simp [pollSleepTrace, checkTime]
  · simp [List.countP_cons, Event.isPoll]
  · simp [List.countP_cons, Event.isFetch, Event.isPoll]

/-- A concrete mock reporting Pending, Pending, Completed with 100 ms polls
and a 50 ms result fetch. -/
def mockPPC : StatusMock where
  poll := fun i => if i = 0 then .ok ⟨.pending⟩
    else if i = 1 then .ok ⟨.pending⟩ else .ok ⟨.completed⟩
  pollDur := fun _ => 100
  results := .ok ⟨["row1"]⟩
  resultsDur := 50

/-- Witness for C1 at the concrete mock. -/
theorem claim_runAndWait_pending_pending_completed_witness :
    wait_for_results mockPPC "exec-w1" 60000 (2 + (0 + 1)) =
      some (.ok ⟨["row1"]⟩,
        [Event.statusPoll 0 0, .sleep pollIntervalMs (mockPPC.pollDur 0),
         .statusPoll 1 (checkTime mockPPC 1),
         .sleep pollIntervalMs (checkTime mockPPC 1 + mockPPC.pollDur 1),
         .statusPoll 2 (checkTime mockPPC 2),
         .resultFetch (checkTime mockPPC 2 + mockPPC.pollDur 2)],
        checkTime mockPPC 2 + mockPPC.pollDur 2 + mockPPC.resultsDur)
    ∧ ([Event.statusPoll 0 0, .sleep pollIntervalMs (mockPPC.pollDur 0),
        .statusPoll 1 (checkTime mockPPC 1),
        .sleep pollIntervalMs (checkTime mockPPC 1 + mockPPC.pollDur 1),
        .statusPoll 2 (checkTime mockPPC 2),
        .resultFetch (checkTime mockPPC 2 + mockPPC.pollDur 2)]).countP
          Event.isPoll = 3
    ∧ ([Event.statusPoll 0 0, .sleep pollIntervalMs (mockPPC.pollDur 0),
        .statusPoll 1 (checkTime mockPPC 1),
        .sleep pollIntervalMs (checkTime mockPPC 1 + mockPPC.pollDur 1),
        .statusPoll 2 (checkTime mockPPC 2),
        .resultFetch (checkTime mockPPC 2 + mockPPC.pollDur 2)]).countP
          Event.isFetch = 1
    ∧ pollIntervalMs = 1000 :=
  claim_runAndWait_pending_pending_completed mockPPC "exec-w1" 60000 0
    ⟨.pending⟩ ⟨.pending⟩ ⟨.completed⟩ ⟨["row1"]⟩
    rfl rfl rfl rfl rfl rfl rfl (by decide) (by decide)

/-- C2: in every run of `wait_for_results` whose first k polls observe
non-terminal states (checks passing) and whose poll k observes Failed, the
wait fails with ExecutionFailed, the message embeds the execution handle and
the last observed status snapshot, and the trace contains no call to the
results endpoint. -/
theorem claim_runAndWait_failed_no_results
    (m : StatusMock) (eid : String) (t fuel k : Nat)
    (stk : ExecutionStatusResponse)
    (hpre : ∀ i, i < k → ∃ st, m.poll i = .ok st ∧
      (st.state = .pending ∨ st.state = .executing))
    (htime : ∀ i, i ≤ k → checkTime m i ≤ t)
    (hk : m.poll k = .ok stk) (hks : stk.state = .failed) :
    wait_for_results m eid t (k + (fuel + 1)) =
      some (.error (.executionFailed (execFailedMsg eid stk)),
            pollSleepTrace m k ++ [Event.statusPoll k (checkTime m k)],
            checkTime m k + m.pollDur k)
    ∧ (pollSleepTrace m k ++ [Event.statusPoll k (checkTime m k)]).countP
        Event.isFetch = 0
    ∧ (∃ p q, execFailedMsg eid stk = p ++ (eid ++ q))
    ∧ (∃ p q, execFailedMsg eid stk = p ++ (statusRepr stk ++ q)) := by
  refine ⟨?_, ?_, ?_, ?_⟩
  · unfold wait_for_results
    rw [wait_steps m eid t k (fuel + 1) hpre (fun i hi => htime i (le_of_lt hi)),
        waitLoopAux_failed_step m eid t fuel (checkTime m k) k
          (pollSleepTrace m k) stk (Nat.not_lt.mpr (htime k le_rfl)) hk hks]
  · simp [List.countP_append, pollSleepTrace_no_fetch, List.countP_cons,
      Event.isFetch]
  · exact ⟨"Query execution failed for execution_id ", ": " ++ statusRepr stk,
      by simp [execFailedMsg, String.append_assoc]⟩
  · exact ⟨"Query execution failed for execution_id " ++ eid ++ ": ", "",
      by simp [execFailedMsg, String.append_assoc]⟩

/-- A concrete mock reporting Failed on the first poll. -/
def mockFail : StatusMock where
  poll := fun _ => .ok ⟨.failed⟩
  pollDur := fun _ => 100
  results := .ok ⟨["never"]⟩
  resultsDur := 50

/-- Witness for C2 at the concrete mock (k = 0). -/
theorem claim_runAndWait_failed_no_results_witness :
    wait_for_results mockFail "exec-w2" 60000 (0 + (0 + 1)) =
      some (.error (.executionFailed (execFailedMsg "exec-w2" ⟨.failed⟩)),
            pollSleepTrace mockFail 0 ++ [Event.statusPoll 0 (checkTime mockFail 0)],
            checkTime mockFail 0 + mockFail.pollDur 0)
    ∧ (pollSleepTrace mockFail 0 ++
        [Event.statusPoll 0 (checkTime mockFail 0)]).countP Event.isFetch = 0
    ∧ (∃ p q, execFailedMsg "exec-w2" ⟨.failed⟩ = p ++ ("exec-w2" ++ q))
    ∧ (∃ p q, execFailedMsg "exec-w2" ⟨.failed⟩ =
        p ++ (statusRepr ⟨.failed⟩ ++ q)) :=
  claim_runAndWait_failed_no_results mockFail "exec-w2" 60000 0 0 ⟨.failed⟩
    (fun i hi => absurd hi (Nat.not_lt_zero i))
    (fun i hi => by interval_cases i; exact Nat.zero_le _)
    rfl rfl

/-- C3: the timeout check happens before (never after) each status poll: an
iteration whose check fires returns Timeout immediately with no poll issued,
an iteration whose check passes always issues its poll (even when that poll
overruns the budget), and a run whose k-th check fires after k non-terminal
polls fails with Timeout carrying the configured timeout (as whole seconds,
as the code stores it), with elapsed time at failure at least the timeout
and no terminal state observed. -/
theorem claim_runAndWait_timeout_semantics
    (m : StatusMock) (eid : String) (t fuel now polls k : Nat)
    (tr : List Event) :
    (t < now →
      waitLoopAux m eid t (fuel + 1) now polls tr =
        some (.error (.timeout (t / 1000)), tr, now))
    ∧ (¬ t < now →
        ∀ res tr' el,
          waitLoopAux m eid t (fuel + 1) now polls tr = some (res, tr', el) →
          ∃ rest, tr' = (tr ++ [Event.statusPoll polls now]) ++ rest)
    ∧ ((∀ i, i < k → ∃ st, m.poll i = .ok st ∧
          (st.state = .pending ∨ st.state = .executing)) →
       (∀ i, i < k → checkTime m i ≤ t) →
       t < checkTime m k →
       wait_for_results m eid t (k + (fuel + 1)) =
         some (.error (.timeout (t / 1000)), pollSleepTrace m k, checkTime m k)
       ∧ t ≤ checkTime m k
       ∧ (pollSleepTrace m k).countP Event.isFetch = 0
       ∧ (pollSleepTrace m k).countP Event.isPoll = k) := by
  refine ⟨fun h => waitLoopAux_timeout_step m eid t fuel now polls tr h,
    ?_, ?_⟩
  · intro hle res tr' el h
    cases hp : m.poll polls with
    | error e =>
      rw [waitLoopAux_transport_step m eid t fuel now polls tr e hle hp] at h
      simp only [Option.some.injEq, Prod.mk.injEq] at h
      exact ⟨[], by simp [h.2.1.symm]⟩
    | ok st =>
      cases hs : st.state with
      | completed =>
        rw [waitLoopAux_completed_step m eid t fuel now polls tr st hle hp
              hs] at h
        simp only [Option.some.injEq, Prod.mk.injEq] at h
        exact ⟨[.resultFetch (now + m.pollDur polls)],
          by simp [h.2.1.symm]⟩
      | failed =>
        rw [waitLoopAux_failed_step m eid t fuel now polls tr st hle hp hs] at h
        simp only [Option.some.injEq, Prod.mk.injEq] at h
        exact ⟨[], by simp [h.2.1.symm]⟩
      | cancelled =>
        rw [waitLoopAux_cancelled_step m eid t fuel now polls tr st hle hp
              hs] at h
        simp only [Option.some.injEq, Prod.mk.injEq] at h
        exact ⟨[], by simp [h.2.1.symm]⟩
      | pending =>
        rw [waitLoopAux_nonterminal_step m eid t fuel now polls tr st hle hp
              (Or.inl hs)] at h
        obtain ⟨rest, hrest⟩ := waitLoopAux_trace_mono m eid t fuel _ _ _
          res tr' el h
        exact ⟨[.sleep pollIntervalMs (now + m.pollDur polls)] ++ rest,
          by simp [hrest, List.append_assoc]⟩
      | executing =>
        rw [waitLoopAux_nonterminal_step m eid t fuel now polls tr st hle hp
              (Or.inr hs)] at h
        obtain ⟨rest, hrest⟩ := waitLoopAux_trace_mono m eid t fuel _ _ _
          res tr' el h
        exact ⟨[.sleep pollIntervalMs (now + m.pollDur polls)] ++ rest,
          by simp [hrest, List.append_assoc]⟩
  · intro hpre htime hfire
    refine ⟨?_, le_of_lt hfire, pollSleepTrace_no_fetch m k,
      pollSleepTrace_poll_count m k⟩
    unfold wait_for_results
    rw [wait_steps m eid t k (fuel + 1) hpre htime,
        waitLoopAux_timeout_step m eid t fuel (checkTime m k) k
          (pollSleepTrace m k) hfire]

/-- A concrete mock that stays Pending forever, each poll taking 200 ms. -/
def mockPendingForever : StatusMock where
  poll := fun _ => .ok ⟨.pending⟩
  pollDur := fun _ => 200
  results := .ok ⟨["never"]⟩
  resultsDur := 0

/-- Witness for C3 at concrete inputs: the first conjunct with the check
already past the budget, and the run-level conjunct with a 2000 ms timeout
that fires at the second check (elapsed 2400 ms). -/
theorem claim_runAndWait_timeout_semantics_witness :
    waitLoopAux mockPendingForever "exec-w3" 1000 (0 + 1) 1001 0 [] =
      some (.error (.timeout (1000 / 1000)), [], 1001)
    ∧ (wait_for_results mockPendingForever "exec-w3" 2000 (2 + (0 + 1)) =
        some (.error (.timeout (2000 / 1000)), pollSleepTrace mockPendingForever 2,
              checkTime mockPendingForever 2)
       ∧ 2000 ≤ checkTime mockPendingForever 2
       ∧ (pollSleepTrace mockPendingForever 2).countP Event.isFetch = 0
       ∧ (pollSleepTrace mockPendingForever 2).countP Event.isPoll = 2) :=
  ⟨(claim_runAndWait_timeout_semantics mockPendingForever "exec-w3" 1000 0
      1001 0 0 []).1 (by decide),
   (claim_runAndWait_timeout_semantics mockPendingForever "exec-w3" 2000 0
      0 0 2 []).2.2
     (fun i hi => ⟨⟨.pending⟩, rfl, Or.inl rfl⟩)
     (fun i hi => by interval_cases i <;> decide)
     (by decide)⟩

/-- A concrete submit mock: the submit round trip takes 5000 ms, the first
status poll (instantaneous) reports Completed. -/
def mockSlowSubmit : SubmitMock where
  submit := .ok "e1"
  submitDur := 5000
  status :=
    { poll := fun _ => .ok ⟨.completed⟩
      pollDur := fun _ => 0
      results := .ok ⟨["r"]⟩
      resultsDur := 0 }

/-- C4 counterexample: with a 3000 ms timeout and a 5000 ms submit round
trip, the code returns the results (its wait clock starts after submission
returned, so the first check sees elapsed 0), whereas under the claim's
reading — the budget includes the submit round trip — the first check would
already see 5000 > 3000 and fail with Timeout, as `run_sql_specClock` does. -/
theorem claim_run_sql_budget_cex :
    run_sql mockSlowSubmit 3000 3 =
      some (.ok ⟨["r"]⟩, [Event.statusPoll 0 0, .resultFetch 0], 0)
    ∧ run_sql_specClock mockSlowSubmit 3000 3 =
      some (.error (.timeout 3), [], 5000)
    ∧ 3000 < mockSlowSubmit.submitDur := by
  refine ⟨rfl, rfl, by decide⟩

/-- C4 amended: the quantity compared against the timeout in the wait loop
is the wall-clock time elapsed since the wait loop began, i.e. since the
submit round trip returned; the submit duration is excluded from the budget
(the outcome of `run_sql` is unchanged under any change of the submit
duration). -/
theorem claim_run_sql_budget_amended
    (m m' : SubmitMock) (t fuel : Nat) (eid : String) :
    (m.submit = .ok eid → run_sql m t fuel = wait_for_results m.status eid t fuel)
    ∧ (m'.submit = m.submit → m'.status = m.status →
        run_sql m' t fuel = run_sql m t fuel) := by
  constructor
  · intro h
    simp [run_sql, h]
  · intro h1 h2
    simp only [run_sql, h1, h2]

/-- Witness for C4 amended at concrete inputs: a submit mock differing from
`mockSlowSubmit` only in its submit duration yields the same outcome. -/
theorem claim_run_sql_budget_amended_witness :
    (run_sql mockSlowSubmit 3000 3 =
      wait_for_results mockSlowSubmit.status "e1" 3000 3)
    ∧ (run_sql { mockSlowSubmit with submitDur := 0 } 3000 3 =
        run_sql mockSlowSubmit 3000 3) :=
  ⟨(claim_run_sql_budget_amended mockSlowSubmit mockSlowSubmit 3000 3 "e1").1
      rfl,
   (claim_run_sql_budget_amended mockSlowSubmit
      { mockSlowSubmit with submitDur := 0 } 3000 3 "e1").2 rfl rfl⟩

/-- C5: observing Cancelled (as the first terminal observation, checks
passing) fails the wait with the Cancelled error; observing Pending or
Executing appends exactly a poll and a sleep of the fixed poll interval
(1 second) to the trace and repeats from the timeout check, with no other
action. -/
theorem claim_runAndWait_cancelled_and_poll_interval
    (m : StatusMock) (eid : String) (t fuel k now polls : Nat)
    (tr : List Event) (stc stn : ExecutionStatusResponse) :
    ((∀ i, i < k → ∃ st, m.poll i = .ok st ∧
        (st.state = .pending ∨ st.state = .executing)) →
     (∀ i, i ≤ k → checkTime m i ≤ t) →
     m.poll k = .ok stc → stc.state = .cancelled →
     wait_for_results m eid t (k + (fuel + 1)) =
       some (.error .cancelled,
             pollSleepTrace m k ++ [Event.statusPoll k (checkTime m k)],
             checkTime m k + m.pollDur k))
    ∧ (¬ t < now → m.poll polls = .ok stn →
        (stn.state = .pending ∨ stn.state = .executing) →
        waitLoopAux m eid t (fuel + 1) now polls tr =
          waitLoopAux m eid t fuel (now + m.pollDur polls + pollIntervalMs)
            (polls + 1)
            (tr ++ [Event.statusPoll polls now,
                    .sleep pollIntervalMs (now + m.pollDur polls)]))
    ∧ pollIntervalMs = 1000 := by
  refine ⟨?_, fun h hp hs =>
    waitLoopAux_nonterminal_step m eid t fuel now polls tr stn h hp hs, rfl⟩
  intro hpre htime hk hks
  unfold wait_for_results
  rw [wait_steps m eid t k (fuel + 1) hpre (fun i hi => htime i (le_of_lt hi)),
      waitLoopAux_cancelled_step m eid t fuel (checkTime m k) k
        (pollSleepTrace m k) stc (Nat.not_lt.mpr (htime k le_rfl)) hk hks]

/-- A concrete mock reporting Executing then Cancelled. -/
def mockCancel : StatusMock where
  poll := fun i => if i = 0 then .ok ⟨.executing⟩ else .ok ⟨.cancelled⟩
  pollDur := fun _ => 50
  results := .ok ⟨["never"]⟩
  resultsDur := 0

/-- Witness for C5 at the concrete mock: the Cancelled outcome after one
Executing observation (k = 1), and one non-terminal step. -/
theorem claim_runAndWait_cancelled_and_poll_interval_witness :
    (wait_for_results mockCancel "exec-w5" 60000 (1 + (0 + 1)) =
      some (.error .cancelled,
            pollSleepTrace mockCancel 1 ++
              [Event.statusPoll 1 (checkTime mockCancel 1)],
            checkTime mockCancel 1 + mockCancel.pollDur 1))
    ∧ (waitLoopAux mockCancel "exec-w5" 60000 (0 + 1) 0 0 [] =
        waitLoopAux mockCancel "exec-w5" 60000 0
          (0 + mockCancel.pollDur 0 + pollIntervalMs) (0 + 1)
          ([] ++ [Event.statusPoll 0 0,
                  .sleep pollIntervalMs (0 + mockCancel.pollDur 0)])) :=
  ⟨(claim_runAndWait_cancelled_and_poll_interval mockCancel "exec-w5" 60000 0
      1 0 0 [] ⟨.cancelled⟩ ⟨.executing⟩).1
      (fun i hi => by interval_cases i; exact ⟨⟨.executing⟩, rfl, Or.inr rfl⟩)
      (fun i hi => by interval_cases i <;> decide)
      rfl rfl,
   (claim_runAndWait_cancelled_and_poll_interval mockCancel "exec-w5" 60000 0
      1 0 0 [] ⟨.cancelled⟩ ⟨.executing⟩).2.1
      (by decide) rfl (Or.inr rfl)⟩

/-- A concrete mock whose first poll fails at the transport level. -/
def mockTransportErr : StatusMock where
  poll := fun _ => .error (.http "connection reset")
  pollDur := fun _ => 5
  results := .ok ⟨[]⟩
  resultsDur := 0

/-- Whether the second char list is an initial run of the first. -/
def leadsWith : List Char → List Char → Bool
  | _, [] => true
  | [], _ :: _ => false
  | c :: cs, d :: ds => c == d && leadsWith cs ds

/-- Whether the first char list contains the second as a contiguous run. -/
def containsSeq : List Char → List Char → Bool
  | [], needle => needle.isEmpty
  | c :: cs, needle => leadsWith (c :: cs) needle || containsSeq cs needle

/-- C6 counterexample: a status poll fails at the transport level; the wait
aborts at once (one poll, nothing further), but the surfaced failure is the
underlying transport error verbatim — it embeds neither the handle "exec-1"
(not a substring of the message) nor any elapsed state, contradicting the
claim that the wait adds context rather than re-throwing. -/
theorem claim_runAndWait_transport_context_cex :
    wait_for_results mockTransportErr "exec-1" 10000 7 =
      some (.error (.http "connection reset"), [Event.statusPoll 0 0], 5)
    ∧ mockTransportErr.poll 0 = .error (.http "connection reset")
    ∧ containsSeq ("connection reset".data) ("exec-1".data) = false := by
  refine ⟨rfl, rfl, by decide⟩

/-- C6 amended: a transport error on a status poll (after k non-terminal
observations, checks passing) aborts the wait immediately — no retry, the
trace holds exactly k+1 polls and no result fetch — and the underlying
transport error is propagated unchanged, with no added context. -/
theorem claim_runAndWait_transport_error_propagates
    (m : StatusMock) (eid : String) (t fuel k : Nat) (e : DuneError)
    (hpre : ∀ i, i < k → ∃ st, m.poll i = .ok st ∧
      (st.state = .pending ∨ st.state = .executing))
    (htime : ∀ i, i ≤ k → checkTime m i ≤ t)
    (hk : m.poll k = .error e) :
    wait_for_results m eid t (k + (fuel + 1)) =
      some (.error e,
            pollSleepTrace m k ++ [Event.statusPoll k (checkTime m k)],
            checkTime m k + m.pollDur k)
    ∧ (pollSleepTrace m k ++ [Event.statusPoll k (checkTime m k)]).countP
        Event.isPoll = k + 1
    ∧ (pollSleepTrace m k ++ [Event.statusPoll k (checkTime m k)]).countP
        Event.isFetch = 0 := by
  refine ⟨?_, ?_, ?_⟩
  · unfold wait_for_results
    rw [wait_steps m eid t k (fuel + 1) hpre (fun i hi => htime i (le_of_lt hi)),
        waitLoopAux_transport_step m eid t fuel (checkTime m k) k
          (pollSleepTrace m k) e (Nat.not_lt.mpr (htime k le_rfl)) hk]
  · simp [List.countP_append, pollSleepTrace_poll_count, List.countP_cons,
      Event.isPoll]
  · simp [List.countP_append, pollSleepTrace_no_fetch, List.countP_cons,
      Event.isFetch]

/-- Witness for C6 amended at the concrete mock (k = 0). -/
theorem claim_runAndWait_transport_error_propagates_witness :
    wait_for_results mockTransportErr "exec-1" 10000 (0 + (6 + 1)) =
      some (.error (.http "connection reset"),
            pollSleepTrace mockTransportErr 0 ++
              [Event.statusPoll 0 (checkTime mockTransportErr 0)],
            checkTime mockTransportErr 0 + mockTransportErr.pollDur 0)
    ∧ (pollSleepTrace mockTransportErr 0 ++
        [Event.statusPoll 0 (checkTime mockTransportErr 0)]).countP
          Event.isPoll = 0 + 1
    ∧ (pollSleepTrace mockTransportErr 0 ++
        [Event.statusPoll 0 (checkTime mockTransportErr 0)]).countP
          Event.isFetch = 0 :=
  claim_runAndWait_transport_error_propagates mockTransportErr "exec-1"
    10000 6 0 (.http "connection reset")
    (fun i hi => absurd hi (Nat.not_lt_zero i))
    (fun i hi => by interval_cases i; exact Nat.zero_le _)
    rfl

/-- The non-success body used as the C7 counterexample, the JSON object
with an error string field. -/
def jsonErrBody : String := "\x7b\"error\":\"bad query\"\x7d"

/-- The non-success CSV-endpoint response carrying that body. -/
def csvErrResponse : HttpResponse where
  code := 400
  statusDisplay := "400 Bad Request"
  text := .ok jsonErrBody

/-- A concrete parse oracle recognising the counterexample body. -/
def cexParse : String → Option Json := fun b =>
  if b = jsonErrBody then some (.obj [("error", .str "bad query")]) else none

/-- C7 counterexample: the claim quantifies over every client operation, but
the CSV operation goes through `handle_text_response`, which never extracts
the error field: on a non-success response whose body is the JSON object
with error field "bad query" (as the parse oracle attests), it surfaces the
verbatim status-and-body string, not "bad query". -/
theorem claim_error_field_csv_cex :
    get_execution_results_csv_with_options csvErrResponse =
      .error (.api ("HTTP 400 Bad Request: " ++ jsonErrBody))
    ∧ get_execution_results_csv_with_options csvErrResponse ≠
        .error (.api "bad query")
    ∧ cexParse jsonErrBody = some (.obj [("error", .str "bad query")])
    ∧ Json.getStr (.obj [("error", .str "bad query")]) "error" =
        some "bad query"
    ∧ isSuccessCode csvErrResponse.code = false := by
  refine ⟨rfl, ?_, by simp [cexParse], rfl, rfl⟩
  intro h
  have h2 : ("HTTP 400 Bad Request: " ++ jsonErrBody) = "bad query" := by
    have h3 := congrArg (fun x => match x with
      | Except.error (DuneError.api s) => s
      | _ => "") h
    simpa [get_execution_results_csv_with_options, handle_text_response,
      csvErrResponse, httpStatusBodyMsg, textOrDefault, isSuccessCode] using h3
  simp [jsonErrBody] at h2

/-- C7 amended: a JSON-decoding operation (routing through
`handle_response`) maps a non-success response whose body parses to a JSON
value holding an error string field to RequestRejected carrying exactly that
field's value, and one whose body yields no such field to RequestRejected
carrying the verbatim status-and-body string; a text (CSV) operation
(routing through `handle_text_response`) maps every non-success response to
RequestRejected carrying the verbatim status-and-body string, whether or not
the body holds an error field. -/
theorem claim_error_mapping_amended {T : Type}
    (decode : String → Except DuneError T) (parse : String → Option Json)
    (r : HttpResponse) (body : String) (j : Json) (msg : String) :
    (isSuccessCode r.code = false → r.text = .ok body →
      parse body = some j → Json.getStr j "error" = some msg →
      handle_response decode parse r = .error (.api msg))
    ∧ (isSuccessCode r.code = false → r.text = .ok body →
        errField parse body = none →
        handle_response decode parse r =
          .error (.api (httpStatusBodyMsg r body)))
    ∧ (isSuccessCode r.code = false → r.text = .ok body →
        handle_text_response r = .error (.api (httpStatusBodyMsg r body))) := by
  refine ⟨?_, ?_, ?_⟩
  · intro hc hb hp hf
    simp [handle_response, hc, textOrDefault, hb, errField, hp, hf]
  · intro hc hb hf
    have hb2 : textOrDefault r = body := by simp [textOrDefault, hb]
    simp [handle_response, hc, hb2, hf]
  · intro hc hb
    simp [handle_text_response, hc, textOrDefault, hb]

/-- Witness for C7 amended at concrete inputs: a JSON operation extracts
"bad query" from the counterexample body; with an always-failing parse
oracle the verbatim string is surfaced; the CSV handler surfaces the
verbatim string on the same response. -/
theorem claim_error_mapping_amended_witness :
    (handle_response (fun b => Except.ok b) cexParse csvErrResponse =
      .error (.api "bad query"))
    ∧ (handle_response (fun b => Except.ok b) (fun _ => none) csvErrResponse =
        .error (.api (httpStatusBodyMsg csvErrResponse jsonErrBody)))
    ∧ (handle_text_response csvErrResponse =
        .error (.api (httpStatusBodyMsg csvErrResponse jsonErrBody))) :=
  ⟨(claim_error_mapping_amended (fun b => Except.ok b) cexParse csvErrResponse
      jsonErrBody (.obj [("error", .str "bad query")]) "bad query").1
      rfl rfl (by simp [cexParse]) rfl,
   (claim_error_mapping_amended (fun b => Except.ok b) (fun _ => none)
      csvErrResponse jsonErrBody (.obj [("error", .str "bad query")])
      "bad query").2.1 rfl rfl rfl,
   (claim_error_mapping_amended (fun b => Except.ok b) cexParse csvErrResponse
      jsonErrBody (.obj [("error", .str "bad query")]) "bad query").2.2
      rfl rfl⟩

/-- C8 counterexample: the newline byte [10] is a non-empty credential, yet
construction fails with InvalidCredential (HeaderValue::from_str rejects
control characters), contradicting "construction succeeds for every
non-empty credential string". -/
theorem claim_construction_nonempty_cex :
    ([10] : List Nat) ≠ []
    ∧ (with_base_url [10] "https://api.dune.com/api").1 =
        .error .invalidApiKey := by
  refine ⟨by decide, rfl⟩

/-- C8 amended: construction succeeds for every non-empty credential whose
bytes are all valid header-value bytes; for the empty credential it fails
with InvalidCredential; and in every case construction issues no network
call. -/
theorem claim_construction_amended (k : List Nat) (u : String) :
    (k = [] → (with_base_url k u).1 = .error .invalidApiKey)
    ∧ (k ≠ [] → k.all isValidHeaderByte = true →
        (with_base_url k u).1 =
          .ok { headers := [("X-Dune-Api-Key", k)], base_url := u,
                timeoutSecs := 30 })
    ∧ (with_base_url k u).2 = 0 := by
  refine ⟨fun h => by simp [with_base_url, h],
    fun h1 h2 => by simp [with_base_url, h1, h2], ?_⟩
  by_cases h : k = [] <;> by_cases h2 : k.all isValidHeaderByte <;>
    simp [with_base_url, h, h2]

/-- Witness for C8 amended at concrete inputs: the bytes of "abc". -/
theorem claim_construction_amended_witness :
    (([97, 98, 99] : List Nat) = [] →
      (with_base_url [97, 98, 99] "https://api.dune.com/api").1 =
        .error .invalidApiKey)
    ∧ (([97, 98, 99] : List Nat) ≠ [] →
        ([97, 98, 99] : List Nat).all isValidHeaderByte = true →
        (with_base_url [97, 98, 99] "https://api.dune.com/api").1 =
          .ok { headers := [("X-Dune-Api-Key", [97, 98, 99])],
                base_url := "https://api.dune.com/api", timeoutSecs := 30 })
    ∧ (with_base_url [97, 98, 99] "https://api.dune.com/api").2 = 0 :=
  claim_construction_amended [97, 98, 99] "https://api.dune.com/api"

/-- C9: for every success-status response to the CSV results endpoint whose
body reads successfully, the returned text is the raw response body
unmodified, whatever its content — no parsing or validation is applied. -/
theorem claim_results_csv_verbatim (r : HttpResponse) (body : String)
    (h : isSuccessCode r.code = true) (hb : r.text = .ok body) :
    get_execution_results_csv_with_options r = .ok body := by
  simp [get_execution_results_csv_with_options, handle_text_response, h, hb]

/-- A success response carrying a malformed CSV body. -/
def malformedCsvResponse : HttpResponse where
  code := 200
  statusDisplay := "200 OK"
  text := .ok "a,b\n1,2,3,,\"unclosed\nx;;y"

/-- Witness for C9 at the malformed CSV body. -/
theorem claim_results_csv_verbatim_witness :
    get_execution_results_csv_with_options malformedCsvResponse =
      .ok "a,b\n1,2,3,,\"unclosed\nx;;y" :=
  claim_results_csv_verbatim malformedCsvResponse
    "a,b\n1,2,3,,\"unclosed\nx;;y" rfl rfl

/-- C10: construction succeeds exactly for non-empty keys all of whose bytes
are valid header-value bytes; a non-empty key holding an invalid byte (a
newline or other control character) fails with InvalidCredential rather than
succeeding. -/
theorem claim_construction_succeeds_iff (k : List Nat) (u : String) :
    ((∃ c, (with_base_url k u).1 = .ok c) ↔
      (k ≠ [] ∧ k.all isValidHeaderByte = true))
    ∧ (k ≠ [] → k.all isValidHeaderByte = false →
        (with_base_url k u).1 = .error .invalidApiKey) := by
  constructor
  · constructor
    · rintro ⟨c, hc⟩
      by_cases h : k = []
      · simp [with_base_url, h] at hc
      · by_cases h2 : k.all isValidHeaderByte
        · exact ⟨h, h2⟩
        · simp [with_base_url, h, h2] at hc
    · rintro ⟨h1, h2⟩
      exact ⟨{ headers := [("X-Dune-Api-Key", k)], base_url := u,
               timeoutSecs := 30 }, by simp [with_base_url, h1, h2]⟩
  · intro h1 h2
    simp [with_base_url, h1, h2]

/-- Witness for C10 at concrete inputs: the valid bytes of "abc" succeed,
and the newline byte fails. -/
theorem claim_construction_succeeds_iff_witness :
    (∃ c, (with_base_url [97, 98, 99] "https://api.dune.com/api").1 = .ok c)
    ∧ (with_base_url [10] "https://api.dune.com/api").1 =
        .error .invalidApiKey :=
  ⟨(claim_construction_succeeds_iff [97, 98, 99]
      "https://api.dune.com/api").1.mpr ⟨by decide, by decide⟩,
   (claim_construction_succeeds_iff [10] "https://api.dune.com/api").2
      (by decide) (by decide)⟩

end Sandworm
